import Mathlib

/-!
Verification of the nutrition-chat API routes of the `csce445project`
repository, a Next.js application.  The repository contains three variants
of a chat `POST` handler (`src/app/api/chat/route.ts`, two variants
separated in the snapshot, and a streaming variant) plus a diagnostic
`GET` handler.  External effects (the OpenAI chat-completion calls and the
FDA food-database fetches) are modelled as oracles passed in an
environment; a trace of issued external calls is returned alongside the
HTTP response so that claims about which calls are made can be stated.
Thrown JavaScript exceptions are modelled with `Except Unit`.
-/

namespace NicChat

/-- `role: 'user' | 'assistant' | 'system'` from the `ChatMessage` interface. -/
inductive Role where
  | user
  | assistant
  | system
deriving DecidableEq, Repr

/-- `interface ChatMessage { role; content: string }`. -/
structure ChatMessage where
  role : Role
  content : String
deriving DecidableEq, Repr

/-- One element of a food record's `foodNutrients` array:
`{ nutrientName: string; value: number; unitName: string }`. -/
structure Nutrient where
  nutrientName : String
  value : Int
  unitName : String
deriving DecidableEq, Repr

/-- One record of the FDA search response's `foods` array; its
`foodNutrients` field may be absent (`foodNutrients?.`). -/
structure FoodRecord where
  foodNutrients : Option (List Nutrient)
deriving DecidableEq, Repr

/-- Parsed JSON of one FDA search response; the `foods` field may be
absent (`data.foods?.`). -/
structure SearchData where
  foods : Option (List FoodRecord)
deriving DecidableEq, Repr

/-- An element pushed onto `results` in `fetchFDAInfo`:
`{ item, nutrients }`. -/
structure NutritionEntry where
  item : String
  nutrients : List Nutrient
deriving DecidableEq, Repr

/-- `async function fetchFDAInfo(foodItems: string[])` from
`src/app/api/chat/route.ts`.  `lookup` stands for the awaited
`fetch` + `res.json()` pair for one query item: `Except.error` models a
rejected fetch or a JSON-parse failure (no `try`/`catch` surrounds the
loop body, so such an error propagates out of the function).  The first
component of the result is the sequence of search queries actually
issued, in order; the second is the returned `results` array, or the
propagated error.  A response whose `foods` array is absent or empty
(`data.foods?.length > 0` false) contributes no entry; otherwise the
entry keeps `data.foods[0].foodNutrients?.slice(0, 5) || []`. -/
def fetchFDAInfo (lookup : String → Except Unit SearchData) :
    List String → List String × Except Unit (List NutritionEntry)
  | [] => ([], Except.ok [])
  | item :: rest =>
    match lookup item with
    | Except.error e => ([item], Except.error e)
    | Except.ok data =>
      let r := fetchFDAInfo lookup rest
      (item :: r.1,
        match r.2 with
        | Except.error e => Except.error e
        | Except.ok results =>
          match data.foods with
          | some (f :: _) =>
            Except.ok ({ item := item,
                         nutrients := (f.foodNutrients.getD []).take 5 } :: results)
          | _ => Except.ok results)

/-- Accumulator loop behind `jsSplitComma`. -/
def splitCommaAux : List Char → List Char → List (List Char)
  | [], acc => [acc.reverse]
  | c :: rest, acc =>
    if c = ',' then acc.reverse :: splitCommaAux rest []
    else splitCommaAux rest (c :: acc)

/-- The JavaScript built-in `s.split(',')` (no limit argument): the
string cut at every comma; the empty string splits to `[""]`. -/
def jsSplitComma (s : String) : List String :=
  (splitCommaAux s.data []).map List.asString

/-- The JavaScript built-in `s.trim()`: leading and trailing whitespace
removed. -/
def jsTrim (s : String) : String :=
  (((s.data.dropWhile Char.isWhitespace).reverse.dropWhile
      Char.isWhitespace).reverse).asString

/-- `foodList.split(',').map((item) => item.trim()).filter(Boolean)` --
the parsing of the extraction model's reply into food items (the empty
string is the only falsy string, so `filter(Boolean)` drops exactly the
empty tokens). -/
def parseFoodItems (foodList : String) : List String :=
  ((jsSplitComma foodList).map jsTrim).filter (fun t => t ≠ "")

/-- Serialization of one nutrient inside `nutritionSummary`:
`` `${n.nutrientName}: ${n.value} ${n.unitName}` ``. -/
def nutrientString (n : Nutrient) : String :=
  n.nutrientName ++ ": " ++ toString n.value ++ " " ++ n.unitName

/-- Serialization of one entry inside `nutritionSummary`:
`` `${entry.item} → ${nutrients}` `` with nutrients joined by `', '`. -/
def entryString (e : NutritionEntry) : String :=
  e.item ++ " → " ++ String.intercalate ", " (e.nutrients.map nutrientString)

/-- `nutritionData.map(...).join('\n')` -- the serialized nutrition
summary. -/
def nutritionSummary (nutritionData : List NutritionEntry) : String :=
  String.intercalate "\n" (nutritionData.map entryString)

/-- The fixed persona/instruction system message of the first (non-title)
route variant, transcribed from the template literal with its exact
indentation and trailing whitespace. -/
def personaContent1 : String :=
  "You are a helpful nutritionist. Use the FDA-backed nutritional data below to inform your response.\n" ++
  "          Make sure you complete the following requirements: \n" ++
  "          - If the user asks about the nutritional value of a food item, provide the data from the FDA API. \n" ++
  "          - If the user asks for a recipe or meal plan, use the nutritional data to suggest healthy options. \n" ++
  "          - If the user asks about dietary restrictions, use the nutritional data to inform your response. \n" ++
  "          - If the user asks for general nutrition advice, use the FDA data to support your recommendations.\n" ++
  "          - If data is missing, explain that and offer general advice.\n" ++
  "          Ensure that your response is clear, concise, and informative.\n" ++
  "          Use the data to support your recommendations and provide actionable advice.\n" ++
  "          Make sure to not use quotes in your response. Please only make use of periods, commas, dashes, and new lines.\n" ++
  "          When using new lines make sure that at least two are used in a row to separate paragraphs.\n" ++
  "          Make sure to not use any markdown or code blocks in your response.\n" ++
  "          "

/-- The fixed persona/instruction system message of the second
(title-generating) route variant. -/
def personaContent2 : String :=
  "You are a helpful nutritionist. Use the FDA-backed nutritional data below to inform your response. If data is missing, explain that and offer general advice."

/-- The second injected system message:
`` `FDA Nutrition Data:\n${nutritionSummary || 'No data found for input foods.'}` ``.
The empty string is falsy in JavaScript, so an empty summary is replaced
by the placeholder. -/
def fdaDataContent (summary : String) : String :=
  "FDA Nutrition Data:\n" ++
    (if summary = "" then "No data found for input foods." else summary)

/-- `enhancedMessages` of the first route variant: the two injected
system messages prepended before the caller's messages. -/
def enhancedMessages1 (summary : String) (messages : List ChatMessage) :
    List ChatMessage :=
  { role := Role.system, content := personaContent1 } ::
  { role := Role.system, content := fdaDataContent summary } ::
  messages

/-- `enhancedMessages` of the second route variant. -/
def enhancedMessages2 (summary : String) (messages : List ChatMessage) :
    List ChatMessage :=
  { role := Role.system, content := personaContent2 } ::
  { role := Role.system, content := fdaDataContent summary } ::
  messages

/-- A small JSON value model, enough for the response bodies the routes
build with `JSON.stringify`. -/
inductive Json where
  | null : Json
  | bool : Bool → Json
  | str : String → Json
  | obj : List (String × Json) → Json
deriving Repr

/-- `JSON.stringify(x)` for `x : string | null` (the nullable
`message.content` field of a completion choice). -/
def jsonOfContent : Option String → Json
  | none => Json.null
  | some s => Json.str s

/-- An HTTP response body: either a JSON body or the relayed token
stream of `StreamingTextResponse` (carrying the relayed chunks). -/
inductive Body where
  | jsonBody : Json → Body
  | streamBody : List String → Body
deriving Repr

/-- An HTTP response: status plus body (`new Response(...)` defaults to
status 200). -/
structure HttpResponse where
  status : Nat
  body : Body
deriving Repr

/-- One external call issued by a handler, recorded in order.  The
extraction and completion calls record the message list they send; an
FDA search records its query item; the title and diagnostic calls record
what the code sends them. -/
inductive ExtCall where
  | extractionCall (sysContent : String) (lastMsg : Option ChatMessage)
  | fdaSearch (item : String)
  | completionCall (msgs : List ChatMessage)
  | titleCall (userContent : String)
  | streamCall (msgs : List ChatMessage)
  | testCall
deriving DecidableEq, Repr

/-- The oracle environment for one request: which credentials are set and
what each awaited external call does (`Except.error` models a thrown
exception from the awaited call). -/
structure Env where
  openaiKey : Bool
  fdcKey : Bool
  extractReply : Except Unit (Option String)
  lookup : String → Except Unit SearchData
  completionReply : Except Unit (Option String)
  titleReply : Except Unit (Option String)

/-- The instruction sent as the system message of the extraction call. -/
def extractionInstruction : String :=
  "Extract individual food items from the user\x27s message. Only return a comma-separated list."

/-- Body of the `catch` block of the chat `POST` handlers:
`{ error, stack, code }` with status 500.  The thrown error's message,
stack and code are not tracked by the model, so representative values
stand in for them; only the status and object shape matter to the
claims. -/
def catchResponse : HttpResponse :=
  { status := 500,
    body := Body.jsonBody (Json.obj
      [("error", Json.str "Unexpected error"),
       ("stack", Json.null),
       ("code", Json.str "unknown_error")]) }

/-- `{ error: 'Missing API keys' }`, status 500. -/
def missingKeysResponse : HttpResponse :=
  { status := 500,
    body := Body.jsonBody (Json.obj [("error", Json.str "Missing API keys")]) }

/-- `{ error: "'messages' must be an array." }`, status 400. -/
def notArrayResponse : HttpResponse :=
  { status := 400,
    body := Body.jsonBody (Json.obj
      [("error", Json.str "\x27messages\x27 must be an array.")]) }

/-- `{ error: 'Too many messages provided. Limit to 50.' }`, status 400. -/
def tooManyResponse : HttpResponse :=
  { status := 400,
    body := Body.jsonBody (Json.obj
      [("error", Json.str "Too many messages provided. Limit to 50.")]) }

/-- `messages[messages.length - 1]`: JavaScript array indexing yields
`undefined` out of bounds rather than throwing, modelled by `Option`. -/
def lastMessage (messages : List ChatMessage) : Option ChatMessage :=
  messages.get? (messages.length - 1)

/-- The parsed request body's `messages` field.  `Except.error` models
`await req.json()` throwing on a malformed body; `none` models a value
for which `Array.isArray(messages)` is false (including an absent
field); `some` is an array of messages. -/
abbrev ParsedBody := Except Unit (Option (List ChatMessage))

/-- The first chat `POST` handler variant of `src/app/api/chat/route.ts`
(no title generation; success body is `JSON.stringify(response)` where
`response` is the completion's `message.content`).  Returns the ordered
trace of external calls issued together with the HTTP response. -/
def POST1 (env : Env) (body : ParsedBody) : List ExtCall × HttpResponse :=
  match body with
  | Except.error _ => ([], catchResponse)
  | Except.ok messagesField =>
    if ¬ (env.openaiKey ∧ env.fdcKey) then
      ([], missingKeysResponse)
    else
      match messagesField with
      | none => ([], notArrayResponse)
      | some messages =>
        if messages.length > 50 then
          ([], tooManyResponse)
        else
          let tr0 := [ExtCall.extractionCall extractionInstruction
                        (lastMessage messages)]
          match env.extractReply with
          | Except.error _ => (tr0, catchResponse)
          | Except.ok content =>
            let foodList := content.getD ""
            let foodItems := parseFoodItems foodList
            let fr := fetchFDAInfo env.lookup foodItems
            let tr1 := tr0 ++ fr.1.map ExtCall.fdaSearch
            match fr.2 with
            | Except.error _ => (tr1, catchResponse)
            | Except.ok nutritionData =>
              let summary := nutritionSummary nutritionData
              let enhanced := enhancedMessages1 summary messages
              let tr2 := tr1 ++ [ExtCall.completionCall enhanced]
              match env.completionReply with
              | Except.error _ => (tr2, catchResponse)
              | Except.ok c =>
                (tr2, { status := 200, body := Body.jsonBody (jsonOfContent c) })

/-- The title-generation block of the second `POST` variant: run only
when `messages.length === 1 && messages[0].role === 'user'`.  Its own
`try`/`catch` turns a thrown error into a `null` title; a present reply
is trimmed, and an empty trim (falsy) also yields `null`.  Returns the
title and the calls issued. -/
def generateTitle (env : Env) (messages : List ChatMessage) :
    Option String × List ExtCall :=
  match messages with
  | [m] =>
    if m.role = Role.user then
      match env.titleReply with
      | Except.error _ => (none, [ExtCall.titleCall m.content])
      | Except.ok c =>
        let t := (c.map jsTrim).bind (fun s => if s = "" then none else some s)
        (t, [ExtCall.titleCall m.content])
    else (none, [])
  | _ => (none, [])

/-- The second chat `POST` handler variant (title generation; success
body `JSON.stringify({ title, message })`). -/
def POST2 (env : Env) (body : ParsedBody) : List ExtCall × HttpResponse :=
  match body with
  | Except.error _ => ([], catchResponse)
  | Except.ok messagesField =>
    if ¬ (env.openaiKey ∧ env.fdcKey) then
      ([], missingKeysResponse)
    else
      match messagesField with
      | none => ([], notArrayResponse)
      | some messages =>
        if messages.length > 50 then
          ([], tooManyResponse)
        else
          let tp := generateTitle env messages
          let tr0 := tp.2 ++ [ExtCall.extractionCall extractionInstruction
                                (lastMessage messages)]
          match env.extractReply with
          | Except.error _ => (tr0, catchResponse)
          | Except.ok content =>
            let foodList := content.getD ""
            let foodItems := parseFoodItems foodList
            let fr := fetchFDAInfo env.lookup foodItems
            let tr1 := tr0 ++ fr.1.map ExtCall.fdaSearch
            match fr.2 with
            | Except.error _ => (tr1, catchResponse)
            | Except.ok nutritionData =>
              let summary := nutritionSummary nutritionData
              let enhanced := enhancedMessages2 summary messages
              let tr2 := tr1 ++ [ExtCall.completionCall enhanced]
              match env.completionReply with
              | Except.error _ => (tr2, catchResponse)
              | Except.ok c =>
                (tr2, { status := 200,
                        body := Body.jsonBody (Json.obj
                          [("title", jsonOfContent tp.1),
                           ("message", jsonOfContent c)]) })

/-- The streaming chat `POST` handler (`src/unnamed/part_000`).  Only the
OpenAI key is checked; on success the completion stream's chunks are
relayed as the response body.  `streamReply` models the awaited
`openai.chat.completions.create({ stream: true, ... })` call: thrown
error or the chunk sequence. -/
def streamPOST (openaiKey : Bool) (streamReply : Except Unit (List String))
    (body : ParsedBody) : List ExtCall × HttpResponse :=
  match body with
  | Except.error _ => ([], catchResponse)
  | Except.ok messagesField =>
    if ¬ openaiKey then
      ([], { status := 500,
             body := Body.jsonBody (Json.obj
               [("error", Json.str "OpenAI API key not configured")]) })
    else
      match messagesField with
      | none =>
        ([], { status := 400,
               body := Body.jsonBody (Json.obj
                 [("error", Json.str "Invalid request: \x27messages\x27 must be an array.")]) })
      | some messages =>
        if messages.length > 50 then
          ([], tooManyResponse)
        else
          let sent := messages.map
            (fun m => ({ role := m.role, content := m.content } : ChatMessage))
          match streamReply with
          | Except.error _ => ([ExtCall.streamCall sent], catchResponse)
          | Except.ok chunks =>
            ([ExtCall.streamCall sent],
             { status := 200, body := Body.streamBody chunks })

/-- The diagnostic `GET` handler (`src/unnamed/part_001`): missing key
gives 401 with no call; otherwise one trivial completion is issued and
`{ success, response | error }` is returned. -/
def diagGET (openaiKey : Bool) (reply : Except Unit (Option String)) :
    List ExtCall × HttpResponse :=
  if ¬ openaiKey then
    ([], { status := 401,
           body := Body.jsonBody (Json.obj
             [("success", Json.bool false),
              ("error", Json.str "OpenAI API key is not configured")]) })
  else
    match reply with
    | Except.error _ =>
      ([ExtCall.testCall],
       { status := 500,
         body := Body.jsonBody (Json.obj
           [("success", Json.bool false),
            ("error", Json.str "Unknown error occurred during API test")]) })
    | Except.ok responseMessage =>
      ([ExtCall.testCall],
       { status := 200,
         body := Body.jsonBody (Json.obj
           [("success", Json.bool true),
            ("response", Json.str
              (if responseMessage = some "API Test Successful" then
                "Connectivity verified"
              else "Unexpected API response"))]) })

/-- The entry the `fetchFDAInfo` loop body contributes for one item, as a
function of that item's (successfully parsed) response: `none` when
`data.foods?.length > 0` is false, otherwise the entry built from the
first record. -/
def firstRecordEntry (data : SearchData) (item : String) :
    Option NutritionEntry :=
  match data.foods with
  | some (f :: _) =>
    some { item := item, nutrients := (f.foodNutrients.getD []).take 5 }
  | _ => none

/-- Modelled from the spec: a JSON body of shape `{title?, message}` --
an object whose fields are exactly `message`, optionally preceded by
`title` (section 6 of the spec). -/
def isTitleMessageBody : Body → Bool
  | Body.jsonBody (Json.obj [("message", _)]) => true
  | Body.jsonBody (Json.obj [("title", _), ("message", _)]) => true
  | _ => false

/-- Modelled from the spec: a streamed text body. -/
def isStreamBody : Body → Bool
  | Body.streamBody _ => true
  | _ => false

/-- A sample caller message used by concrete witnesses. -/
def sampleUserMsg : ChatMessage :=
  { role := Role.user, content := "I ate an apple and a banana" }

/-- A sample FDA food record with two nutrient fields. -/
def appleRecord : FoodRecord :=
  { foodNutrients := some [{ nutrientName := "Protein", value := 1, unitName := "g" },
                           { nutrientName := "Fat", value := 2, unitName := "g" }] }

/-- A lookup oracle where the search for `"apple"` throws (rejected fetch
or JSON-parse failure) and every other search succeeds with one
record. -/
def lookupAppleFails : String → Except Unit SearchData := fun s =>
  if s = "apple" then Except.error () else Except.ok { foods := some [appleRecord] }

/-- A total (never-throwing) lookup oracle: `"apple"` matches one record,
everything else returns an empty `foods` array. -/
def lookupAllOk : String → SearchData := fun s =>
  if s = "apple" then { foods := some [appleRecord] } else { foods := some [] }

/-- A concrete environment whose `"apple"` search throws. -/
def envFail : Env :=
  { openaiKey := true, fdcKey := true,
    extractReply := Except.ok (some "apple, banana"),
    lookup := lookupAppleFails,
    completionReply := Except.ok (some "hello"),
    titleReply := Except.ok (some "Sample Title") }

/-- A concrete environment where every external call succeeds. -/
def envOk : Env :=
  { envFail with lookup := fun s => Except.ok (lookupAllOk s) }

/-- Like `envOk` but the extraction reply names only `"kiwi"`, an item
with no matching food record. -/
def envNoMatch : Env :=
  { envOk with extractReply := Except.ok (some "kiwi") }

/-- Like `envOk` but the extraction reply is whitespace and commas
only. -/
def envBlank : Env :=
  { envOk with extractReply := Except.ok (some " , ") }

/-- Like `envOk` but the model-provider credential is absent. -/
def envNoKey : Env :=
  { envOk with openaiKey := false }

theorem fetchFDAInfo_all_ok (resp : String → SearchData) (items : List String) :
    fetchFDAInfo (fun s => Except.ok (resp s)) items =
      (items, Except.ok (items.filterMap (fun item => firstRecordEntry (resp item) item))) := by
  induction items with
  | nil => rfl
  | cons i rest ih =>
    simp only [fetchFDAInfo, ih, List.filterMap_cons, firstRecordEntry]
    cases h : (resp i).foods with
    | none => simp
    | some l => cases l <;> simp

theorem fetchFDAInfo_error_of_mem (lookup : String → Except Unit SearchData)
    (items : List String) (i : String) (hi : i ∈ items)
    (he : lookup i = Except.error ()) :
    (fetchFDAInfo lookup items).2 = Except.error () := by
  induction items with
  | nil => cases hi
  | cons j rest ih =>
    rcases List.mem_cons.mp hi with hij | hir
    · subst hij
      simp [fetchFDAInfo, he]
    · cases hj : lookup j with
      | error e => simp [fetchFDAInfo, hj]
      | ok data =>
        have hrec := ih hir
        simp [fetchFDAInfo, hj, hrec]

theorem fetchFDAInfo_ok_of_forall (lookup : String → Except Unit SearchData)
    (items : List String)
    (h : ∀ i ∈ items, ∃ d, lookup i = Except.ok d) :
    ∃ results, (fetchFDAInfo lookup items).2 = Except.ok results := by
  induction items with
  | nil => exact ⟨[], rfl⟩
  | cons j rest ih =>
    obtain ⟨d, hd⟩ := h j (List.mem_cons_self j rest)
    obtain ⟨results, hres⟩ := ih (fun i hi => h i (List.mem_cons_of_mem j hi))
    simp only [fetchFDAInfo, hd, hres]
    cases hf : d.foods with
    | none => exact ⟨results, rfl⟩
    | some l =>
      cases l with
      | nil => exact ⟨results, rfl⟩
      | cons f fs =>
        exact ⟨{ item := j, nutrients := (f.foodNutrients.getD []).take 5 } :: results, rfl⟩

/-- C2: for every list of extracted food items and every assignment of
(successfully parsed) search responses to items, `fetchFDAInfo` issues
one search per item in input order, keeps exactly the items whose
response has at least one food record, takes the first record's first
at-most-five nutrient fields (empty list when the record has no
nutrient array), silently omits the rest, and preserves input order. -/
theorem c2_nutrition_lookup_per_item (resp : String → SearchData)
    (items : List String) :
    fetchFDAInfo (fun s => Except.ok (resp s)) items =
      (items,
       Except.ok (items.filterMap (fun item =>
         match (resp item).foods with
         | some (f :: _) =>
           some { item := item, nutrients := (f.foodNutrients.getD []).take 5 }
         | _ => none))) :=
  fetchFDAInfo_all_ok resp items

/-- C1 counterexample: extraction yields `"apple, banana"`, the
`"apple"` search throws (rejected fetch / JSON-parse failure) and every
other search would succeed; the claim says the failed item is dropped,
the remaining items are still looked up and no HTTP 500 results, but the
handler returns status 500 and never searches `"banana"`. -/
theorem c1_counterexample :
    (POST1 envFail (Except.ok (some [sampleUserMsg]))).2.status = 500 ∧
    ExtCall.fdaSearch "banana" ∉
      (POST1 envFail (Except.ok (some [sampleUserMsg]))).1 := by
  decide

/-- C1 amended: a thrown per-item nutrition lookup error is not
recovered locally -- for every validated request whose extraction and
completion calls succeed, the handler returns HTTP 500 exactly when some
extracted item's lookup throws; when no lookup throws, no error is
surfaced (the request returns 200, unmatched items merely being
dropped). -/
theorem c1_amended_lookup_failure_aborts (env : Env)
    (msgs : List ChatMessage) (r c : Option String)
    (hk1 : env.openaiKey = true) (hk2 : env.fdcKey = true)
    (hlen : msgs.length ≤ 50)
    (hex : env.extractReply = Except.ok r)
    (hcomp : env.completionReply = Except.ok c) :
    (POST1 env (Except.ok (some msgs))).2.status = 500 ↔
      ∃ i ∈ parseFoodItems (r.getD ""), env.lookup i = Except.error () := by
  have hbound : ¬ msgs.length > 50 := by omega
  by_cases hfail : ∃ i ∈ parseFoodItems (r.getD ""), env.lookup i = Except.error ()
  · obtain ⟨i, hi, he⟩ := hfail
    have herr := fetchFDAInfo_error_of_mem env.lookup
      (parseFoodItems (r.getD "")) i hi he
    simp only [POST1, hk1, hk2, hex, hbound, herr]
    simp [herr]
    exact ⟨fun _ => ⟨i, hi, he⟩, fun _ => rfl⟩
  · have hall : ∀ i ∈ parseFoodItems (r.getD ""), ∃ d, env.lookup i = Except.ok d := by
      intro i hi
      cases hl : env.lookup i with
      | error e => exact absurd ⟨i, hi, by cases e; exact hl⟩ hfail
      | ok d => exact ⟨d, rfl⟩
    obtain ⟨results, hres⟩ :=
      fetchFDAInfo_ok_of_forall env.lookup (parseFoodItems (r.getD "")) hall
    simp only [POST1, hk1, hk2, hex, hres, hcomp]
    simp [if_neg hbound, hres, hcomp, hfail]

theorem c1_amended_lookup_failure_aborts_witness :
    (POST1 envFail (Except.ok (some [sampleUserMsg]))).2.status = 500 :=
  (c1_amended_lookup_failure_aborts envFail [sampleUserMsg]
      (some "apple, banana") (some "hello") rfl rfl (by decide) rfl rfl).mpr
    ⟨"apple", by decide, rfl⟩

/-- C3: for every validated request whose extraction and per-item
lookups succeed, the primary completion call receives exactly the fixed
persona system message, then the nutrition-data system message, then the
caller's original messages unchanged; the nutrition summary serializes
each entry as `item → nutrientName: value unitName` with nutrients
comma-joined and entries newline-joined; and when no extracted item
matched any record the nutrition section is the literal placeholder. -/
theorem c3_prompt_composition (env : Env) (msgs : List ChatMessage)
    (r : Option String) (resp : String → SearchData)
    (nd : List NutritionEntry)
    (hk1 : env.openaiKey = true) (hk2 : env.fdcKey = true)
    (hlen : msgs.length ≤ 50)
    (hex : env.extractReply = Except.ok r)
    (hlook : env.lookup = fun s => Except.ok (resp s))
    (hnd : nd = (parseFoodItems (r.getD "")).filterMap
             (fun item => firstRecordEntry (resp item) item)) :
    (POST1 env (Except.ok (some msgs))).1 =
      ExtCall.extractionCall extractionInstruction (lastMessage msgs) ::
      (parseFoodItems (r.getD "")).map ExtCall.fdaSearch ++
      [ExtCall.completionCall
        ({ role := Role.system, content := personaContent1 } ::
         { role := Role.system,
           content := "FDA Nutrition Data:\n" ++
             (if nutritionSummary nd = "" then "No data found for input foods."
              else nutritionSummary nd) } ::
         msgs)] ∧
    (nd = [] →
      fdaDataContent (nutritionSummary nd) =
        "FDA Nutrition Data:\nNo data found for input foods.") ∧
    (∀ l : List NutritionEntry,
      nutritionSummary l =
        String.intercalate "\n" (l.map (fun e =>
          e.item ++ " → " ++ String.intercalate ", " (e.nutrients.map (fun n =>
            n.nutrientName ++ ": " ++ toString n.value ++ " " ++ n.unitName))))) := by
  have hbound : ¬ msgs.length > 50 := by omega
  have hfetch : fetchFDAInfo env.lookup (parseFoodItems (r.getD "")) =
      (parseFoodItems (r.getD ""), Except.ok nd) := by
    rw [hlook, hnd]
    exact fetchFDAInfo_all_ok resp (parseFoodItems (r.getD ""))
  refine ⟨?_, ?_, ?_⟩
  · cases hc : env.completionReply with
    | error e =>
      simp [POST1, hk1, hk2, hex, hbound, hfetch, hc, enhancedMessages1,
        fdaDataContent]
    | ok c2 =>
      simp [POST1, hk1, hk2, hex, hbound, hfetch, hc, enhancedMessages1,
        fdaDataContent]
  · intro h
    rw [h]
    rfl
  · intro l
    rfl

theorem c3_prompt_composition_witness :
    (POST1 envNoMatch (Except.ok (some [sampleUserMsg]))).1 =
      ExtCall.extractionCall extractionInstruction (some sampleUserMsg) ::
      [ExtCall.fdaSearch "kiwi"] ++
      [ExtCall.completionCall
        ({ role := Role.system, content := personaContent1 } ::
         { role := Role.system,
           content := "FDA Nutrition Data:\nNo data found for input foods." } ::
         [sampleUserMsg])] := by
  have h := (c3_prompt_composition envNoMatch [sampleUserMsg] (some "kiwi")
    lookupAllOk [] rfl rfl (by decide) rfl rfl (by decide)).1
  rw [h]
  rfl

/-- C4: the food-item list equals the extraction reply split on commas,
trimmed, with empty tokens dropped; a reply all of whose comma tokens
trim to empty (in particular the empty reply) yields an empty item list,
and the request still proceeds to a successful completion with no
nutrition search issued. -/
theorem c4_extraction_parse (env : Env) (msgs : List ChatMessage)
    (s : String) (c : Option String)
    (hk1 : env.openaiKey = true) (hk2 : env.fdcKey = true)
    (hlen : msgs.length ≤ 50)
    (hex : env.extractReply = Except.ok (some s))
    (hblank : ∀ t ∈ jsSplitComma s, jsTrim t = "")
    (hcomp : env.completionReply = Except.ok c) :
    (∀ s' : String, parseFoodItems s' =
       ((jsSplitComma s').map jsTrim).filter (fun t => t ≠ "")) ∧
    parseFoodItems s = [] ∧
    (POST1 env (Except.ok (some msgs))).2.status = 200 ∧
    (∀ e ∈ (POST1 env (Except.ok (some msgs))).1,
       ∀ i, e ≠ ExtCall.fdaSearch i) := by
  have hbound : ¬ msgs.length > 50 := by omega
  have hempty : parseFoodItems s = [] := by
    rw [parseFoodItems, List.filter_eq_nil_iff]
    intro a ha
    obtain ⟨t, ht, rfl⟩ := List.mem_map.mp ha
    simp [hblank t ht]
  refine ⟨fun _ => rfl, hempty, ?_, ?_⟩
  · simp [POST1, hk1, hk2, hex, hbound, hempty, hcomp, fetchFDAInfo]
  · have hpost : (POST1 env (Except.ok (some msgs))).1 =
        [ExtCall.extractionCall extractionInstruction (lastMessage msgs),
         ExtCall.completionCall (enhancedMessages1 (nutritionSummary []) msgs)] := by
      simp [POST1, hk1, hk2, hex, hbound, hempty, hcomp, fetchFDAInfo,
        lastMessage]
    rw [hpost]
    intro e he i
    rcases List.mem_cons.mp he with rfl | h2
    · simp
    · rcases List.mem_cons.mp h2 with rfl | h3
      · simp
      · cases h3

theorem c4_extraction_parse_witness :
    (POST1 envBlank (Except.ok (some [sampleUserMsg]))).2.status = 200 :=
  (c4_extraction_parse envBlank [sampleUserMsg] " , " (some "hello")
    rfl rfl (by decide) rfl (by decide) rfl).2.2.1

/-- C5: with both credentials present and a parsed body, the chat
`POST` handlers return HTTP 400 exactly when the `messages` field is not
an array or is an array of more than 50 entries; any array of at most 50
messages passes validation and the first external call issued is the
extraction call (first variant) or the streaming completion call
(streaming variant). -/
theorem c5_validation_bounds (env : Env) (mf : Option (List ChatMessage))
    (sr : Except Unit (List String))
    (hk1 : env.openaiKey = true) (hk2 : env.fdcKey = true) :
    ((POST1 env (Except.ok mf)).2.status = 400 ↔
       mf = none ∨ ∃ msgs, mf = some msgs ∧ msgs.length > 50) ∧
    (∀ msgs, mf = some msgs → msgs.length ≤ 50 →
       (POST1 env (Except.ok mf)).1.head? =
         some (ExtCall.extractionCall extractionInstruction (lastMessage msgs))) ∧
    ((streamPOST true sr (Except.ok mf)).2.status = 400 ↔
       mf = none ∨ ∃ msgs, mf = some msgs ∧ msgs.length > 50) ∧
    (∀ msgs, mf = some msgs → msgs.length ≤ 50 →
       (streamPOST true sr (Except.ok mf)).1.head? =
         some (ExtCall.streamCall msgs)) := by
  refine ⟨?_, ?_, ?_, ?_⟩
  · cases mf with
    | none => simp [POST1, hk1, hk2, notArrayResponse]
    | some msgs =>
      by_cases hlen : msgs.length > 50
      · simp only [POST1, hk1, hk2]
        simp [hlen, tooManyResponse]
      · simp only [POST1, hk1, hk2]
        cases hex : env.extractReply with
        | error e => simp [hlen, hex, catchResponse, hlen]
        | ok r =>
          cases hfr : (fetchFDAInfo env.lookup (parseFoodItems (r.getD ""))).2 with
          | error e2 =>
            simp [hlen, hex, hfr, catchResponse]
          | ok nutritionData =>
            cases hc : env.completionReply with
            | error e3 => simp [hlen, hex, hfr, hc, catchResponse]
            | ok c2 => simp [hlen, hex, hfr, hc]
  · intro msgs' heq hle
    cases mf with
    | none => cases heq
    | some msgs =>
      cases heq
      have hlen : ¬ msgs'.length > 50 := by omega
      simp only [POST1, hk1, hk2]
      cases hex : env.extractReply with
      | error e => simp [hlen, hex]
      | ok r =>
        cases hfr : (fetchFDAInfo env.lookup (parseFoodItems (r.getD ""))).2 with
        | error e2 => simp [hlen, hex, hfr]
        | ok nutritionData =>
          cases hc : env.completionReply with
          | error e3 => simp [hlen, hex, hfr, hc]
          | ok c2 => simp [hlen, hex, hfr, hc]
  · cases mf with
    | none => simp [streamPOST]
    | some msgs =>
      by_cases hlen : msgs.length > 50
      · simp [streamPOST, hlen, tooManyResponse]
      · cases hs : sr with
        | error e => simp [streamPOST, hlen, hs, catchResponse]
        | ok chunks => simp [streamPOST, hlen, hs]
  · intro msgs' heq hle
    cases mf with
    | none => cases heq
    | some msgs =>
      cases heq
      have hlen : ¬ msgs'.length > 50 := by omega
      have hmap : msgs'.map
          (fun m => ({ role := m.role, content := m.content } : ChatMessage))
            = msgs' :=
        List.map_id msgs'
      cases hs : sr with
      | error e => simp [streamPOST, hlen, hs, hmap]
      | ok chunks => simp [streamPOST, hlen, hs, hmap]

theorem c5_validation_bounds_witness :
    (POST1 envOk (Except.ok none)).2.status = 400 :=
  (c5_validation_bounds envOk none (Except.ok ["chunk"]) rfl rfl).1.mpr
    (Or.inl rfl)

/-- C6: when a required credential is absent, the first chat `POST`
variant returns HTTP 500 and the diagnostic `GET` returns HTTP 401, and
in both cases no external call is issued. -/
theorem c6_missing_credentials (env : Env) (body : ParsedBody)
    (reply : Except Unit (Option String))
    (hmiss : env.openaiKey = false ∨ env.fdcKey = false) :
    (POST1 env body).2.status = 500 ∧ (POST1 env body).1 = [] ∧
    (diagGET false reply).2.status = 401 ∧ (diagGET false reply).1 = [] := by
  refine ⟨?_, ?_, rfl, rfl⟩ <;>
  · cases body with
    | error e => rfl
    | ok mf =>
      have hcond : ¬(env.openaiKey = true ∧ env.fdcKey = true) := by
        rcases hmiss with h | h <;> simp [h]
      simp [POST1, hcond, missingKeysResponse]

theorem c6_missing_credentials_witness :
    (POST1 envNoKey (Except.ok (some [sampleUserMsg]))).2.status = 500 ∧
    (POST1 envNoKey (Except.ok (some [sampleUserMsg]))).1 = [] ∧
    (diagGET false (Except.ok (some "API Test Successful"))).2.status = 401 ∧
    (diagGET false (Except.ok (some "API Test Successful"))).1 = [] :=
  c6_missing_credentials envNoKey (Except.ok (some [sampleUserMsg]))
    (Except.ok (some "API Test Successful")) (Or.inl rfl)

/-- C7: in the title-generating variant, the auxiliary title call is
made exactly when the conversation is a single message whose role is
`user`; the computed title is attached to the successful JSON response;
and for any conversation of more than one message no title call is made
and the response's `title` field is JSON `null`. -/
theorem c7_title_only_first_user_message (env : Env)
    (msgs : List ChatMessage) (r c : Option String)
    (resp : String → SearchData)
    (hk1 : env.openaiKey = true) (hk2 : env.fdcKey = true)
    (hlen : msgs.length ≤ 50)
    (hex : env.extractReply = Except.ok r)
    (hlook : env.lookup = fun s => Except.ok (resp s))
    (hcomp : env.completionReply = Except.ok c) :
    ((∃ s, ExtCall.titleCall s ∈ (POST2 env (Except.ok (some msgs))).1) ↔
       (∃ m, msgs = [m] ∧ m.role = Role.user)) ∧
    (POST2 env (Except.ok (some msgs))).2 =
      { status := 200,
        body := Body.jsonBody (Json.obj
          [("title", jsonOfContent (generateTitle env msgs).1),
           ("message", jsonOfContent c)]) } ∧
    (∀ m m2 rest, msgs = m :: m2 :: rest →
       (∀ s, ExtCall.titleCall s ∉ (POST2 env (Except.ok (some msgs))).1) ∧
       (POST2 env (Except.ok (some msgs))).2.body =
         Body.jsonBody (Json.obj
           [("title", Json.null), ("message", jsonOfContent c)])) := by
  have hbound : ¬ msgs.length > 50 := by omega
  have hfetch : fetchFDAInfo env.lookup (parseFoodItems (r.getD "")) =
      (parseFoodItems (r.getD ""),
       Except.ok ((parseFoodItems (r.getD "")).filterMap
         (fun item => firstRecordEntry (resp item) item))) := by
    rw [hlook]
    exact fetchFDAInfo_all_ok resp (parseFoodItems (r.getD ""))
  have htr : (POST2 env (Except.ok (some msgs))).1 =
      (generateTitle env msgs).2 ++
      ExtCall.extractionCall extractionInstruction (lastMessage msgs) ::
      ((parseFoodItems (r.getD "")).map ExtCall.fdaSearch ++
        [ExtCall.completionCall
          (enhancedMessages2
            (nutritionSummary ((parseFoodItems (r.getD "")).filterMap
              (fun item => firstRecordEntry (resp item) item)))
            msgs)]) := by
    simp [POST2, hk1, hk2, hex, hbound, hfetch, hcomp]
  have hmem : ∀ s, (ExtCall.titleCall s ∈ (POST2 env (Except.ok (some msgs))).1 ↔
      ExtCall.titleCall s ∈ (generateTitle env msgs).2) := by
    intro s
    rw [htr]
    simp
  refine ⟨?_, ?_, ?_⟩
  · constructor
    · rintro ⟨s, hs⟩
      rw [hmem s] at hs
      match hmsgs : msgs with
      | [] => simp [generateTitle] at hs
      | [m] =>
        by_cases hrole : m.role = Role.user
        · exact ⟨m, rfl, hrole⟩
        · simp [generateTitle, hrole] at hs
      | m :: m2 :: rest => simp [generateTitle] at hs
    · rintro ⟨m, rfl, hrole⟩
      refine ⟨m.content, ?_⟩
      rw [hmem m.content]
      cases ht : env.titleReply with
      | error e => simp [generateTitle, hrole, ht]
      | ok t => simp [generateTitle, hrole, ht]
  · simp [POST2, hk1, hk2, hex, hbound, hfetch, hcomp]
  · rintro m m2 rest rfl
    have hgen : generateTitle env (m :: m2 :: rest) = (none, []) := rfl
    constructor
    · intro s
      rw [hmem s, hgen]
      simp
    · have hbound2 : ¬ 50 < rest.length + 1 + 1 := by simpa using hbound
      have h2 : (POST2 env (Except.ok (some (m :: m2 :: rest)))).2 =
          { status := 200,
            body := Body.jsonBody (Json.obj
              [("title", jsonOfContent (generateTitle env (m :: m2 :: rest)).1),
               ("message", jsonOfContent c)]) } := by
        simp [POST2, hk1, hk2, hex, hbound2, hfetch, hcomp]
      rw [h2, hgen]
      rfl

theorem c7_title_only_first_user_message_witness :
    ∃ s, ExtCall.titleCall s ∈ (POST2 envOk (Except.ok (some [sampleUserMsg]))).1 :=
  (c7_title_only_first_user_message envOk [sampleUserMsg]
      (some "apple, banana") (some "hello") lookupAllOk
      rfl rfl (by decide) rfl rfl rfl).1.mpr
    ⟨sampleUserMsg, rfl, rfl⟩

/-- C8 counterexample: a successful request to the first (non-streamed,
title-less) variant returns status 200 with `JSON.stringify(response)`
-- a bare JSON string, which is neither a `{title?, message}` object nor
a streamed body, contradicting the claimed shape for non-streamed
variants. -/
theorem c8_counterexample :
    (POST1 envOk (Except.ok (some [sampleUserMsg]))).2.status = 200 ∧
    isTitleMessageBody (POST1 envOk (Except.ok (some [sampleUserMsg]))).2.body
      = false ∧
    isStreamBody (POST1 envOk (Except.ok (some [sampleUserMsg]))).2.body
      = false := by
  refine ⟨rfl, ?_, ?_⟩ <;> rfl

/-- C8 amended: every successful (status-200) response has one of three
variant-determined shapes: the first non-streamed variant returns a bare
JSON-encoded string-or-null (the completion content), the
title-generating variant returns a JSON object with exactly the fields
`title` and `message`, and the streaming variant returns a streamed text
body. -/
theorem c8_amended_success_shapes (env : Env) (body : ParsedBody)
    (okey : Bool) (streamReply : Except Unit (List String)) :
    ((POST1 env body).2.status = 200 →
       ∃ c, (POST1 env body).2.body = Body.jsonBody (jsonOfContent c)) ∧
    ((POST2 env body).2.status = 200 →
       ∃ t c, (POST2 env body).2.body =
         Body.jsonBody (Json.obj
           [("title", jsonOfContent t), ("message", jsonOfContent c)])) ∧
    ((streamPOST okey streamReply body).2.status = 200 →
       ∃ chunks, (streamPOST okey streamReply body).2.body =
         Body.streamBody chunks) := by
  refine ⟨?_, ?_, ?_⟩
  · cases body with
    | error e => intro h; simp [POST1, catchResponse] at h
    | ok mf =>
      by_cases hk : env.openaiKey = true ∧ env.fdcKey = true
      · cases mf with
        | none => intro h; simp [POST1, hk, notArrayResponse] at h
        | some msgs =>
          by_cases hlen : msgs.length > 50
          · intro h; simp [POST1, hk.1, hk.2, hlen, tooManyResponse] at h
          · cases hex : env.extractReply with
            | error e =>
              intro h
              simp [POST1, hk.1, hk.2, hlen, hex, catchResponse] at h
            | ok r =>
              cases hfr : (fetchFDAInfo env.lookup
                  (parseFoodItems (r.getD ""))).2 with
              | error e2 =>
                intro h
                simp [POST1, hk.1, hk.2, hlen, hex, hfr, catchResponse] at h
              | ok nd =>
                cases hc : env.completionReply with
                | error e3 =>
                  intro h
                  simp [POST1, hk.1, hk.2, hlen, hex, hfr, hc, catchResponse] at h
                | ok c2 =>
                  intro h
                  exact ⟨c2, by simp [POST1, hk.1, hk.2, hlen, hex, hfr, hc]⟩
      · intro h; simp [POST1, hk, missingKeysResponse] at h
  · cases body with
    | error e => intro h; simp [POST2, catchResponse] at h
    | ok mf =>
      by_cases hk : env.openaiKey = true ∧ env.fdcKey = true
      · cases mf with
        | none => intro h; simp [POST2, hk, notArrayResponse] at h
        | some msgs =>
          by_cases hlen : msgs.length > 50
          · intro h; simp [POST2, hk.1, hk.2, hlen, tooManyResponse] at h
          · cases hex : env.extractReply with
            | error e =>
              intro h
              simp [POST2, hk.1, hk.2, hlen, hex, catchResponse] at h
            | ok r =>
              cases hfr : (fetchFDAInfo env.lookup
                  (parseFoodItems (r.getD ""))).2 with
              | error e2 =>
                intro h
                simp [POST2, hk.1, hk.2, hlen, hex, hfr, catchResponse] at h
              | ok nd =>
                cases hc : env.completionReply with
                | error e3 =>
                  intro h
                  simp [POST2, hk.1, hk.2, hlen, hex, hfr, hc, catchResponse] at h
                | ok c2 =>
                  intro h
                  exact ⟨(generateTitle env msgs).1, c2,
                    by simp [POST2, hk.1, hk.2, hlen, hex, hfr, hc]⟩
      · intro h; simp [POST2, hk, missingKeysResponse] at h
  · cases body with
    | error e => intro h; simp [streamPOST, catchResponse] at h
    | ok mf =>
      cases okey with
      | false => intro h; simp [streamPOST] at h
      | true =>
        cases mf with
        | none => intro h; simp [streamPOST] at h
        | some msgs =>
          by_cases hlen : msgs.length > 50
          · intro h; simp [streamPOST, hlen, tooManyResponse] at h
          · cases hs : streamReply with
            | error e2 =>
              intro h
              simp [streamPOST, hlen, hs, catchResponse] at h
            | ok chunks =>
              intro h
              exact ⟨chunks, by simp [streamPOST, hlen, hs]⟩

theorem c8_amended_success_shapes_witness :
    ∃ c, (POST1 envOk (Except.ok (some [sampleUserMsg]))).2.body =
      Body.jsonBody (jsonOfContent c) :=
  (c8_amended_success_shapes envOk (Except.ok (some [sampleUserMsg]))
      true (Except.ok ["chunk"])).1 rfl

/-- C9: the validation of the first chat `POST` variant accepts the
empty `messages` array (no 400 is returned) and the handler then
proceeds to the extraction call indexing `messages[messages.length - 1]`,
which is out of bounds for the empty list (JavaScript `undefined`);
under the unenforced precondition that `messages` is non-empty the same
indexing always yields a message. -/
theorem c9_empty_messages_index (env : Env) (msgs : List ChatMessage)
    (hk1 : env.openaiKey = true) (hk2 : env.fdcKey = true) :
    (POST1 env (Except.ok (some ([] : List ChatMessage)))).2.status ≠ 400 ∧
    (POST1 env (Except.ok (some ([] : List ChatMessage)))).1.head? =
      some (ExtCall.extractionCall extractionInstruction none) ∧
    lastMessage ([] : List ChatMessage) = none ∧
    (msgs ≠ [] → (lastMessage msgs).isSome = true) := by
  refine ⟨?_, ?_, rfl, ?_⟩
  · simp only [POST1, hk1, hk2]
    cases hex : env.extractReply with
    | error e => simp [hex, catchResponse]
    | ok r =>
      cases hfr : (fetchFDAInfo env.lookup (parseFoodItems (r.getD ""))).2 with
      | error e2 => simp [hex, hfr, catchResponse]
      | ok nd =>
        cases hc : env.completionReply with
        | error e3 => simp [hex, hfr, hc, catchResponse]
        | ok c2 => simp [hex, hfr, hc]
  · simp only [POST1, hk1, hk2]
    cases hex : env.extractReply with
    | error e => simp [hex, lastMessage]
    | ok r =>
      cases hfr : (fetchFDAInfo env.lookup (parseFoodItems (r.getD ""))).2 with
      | error e2 => simp [hex, hfr, lastMessage]
      | ok nd =>
        cases hc : env.completionReply with
        | error e3 => simp [hex, hfr, hc, lastMessage]
        | ok c2 => simp [hex, hfr, hc, lastMessage]
  · intro hne
    have hpos : 0 < msgs.length := List.length_pos.mpr hne
    have hlt : msgs.length - 1 < msgs.length := Nat.sub_lt hpos Nat.one_pos
    rw [lastMessage, List.get?_eq_get hlt]
    rfl

theorem c9_empty_messages_index_witness :
    (lastMessage [sampleUserMsg]).isSome = true :=
  (c9_empty_messages_index envOk [sampleUserMsg] rfl rfl).2.2.2 (by decide)

/-- C10: the streaming variant performs no prompt augmentation -- for
every validated request the single external call is the streaming
completion over the caller's messages mapped to their role/content
fields (which leaves them unchanged), with no system message prepended
and no extraction or nutrition-lookup call issued. -/
theorem c10_stream_no_augmentation (streamReply : Except Unit (List String))
    (msgs : List ChatMessage) (hlen : msgs.length ≤ 50) :
    msgs.map (fun m => ({ role := m.role, content := m.content } : ChatMessage))
      = msgs ∧
    (streamPOST true streamReply (Except.ok (some msgs))).1 =
      [ExtCall.streamCall msgs] ∧
    (∀ e ∈ (streamPOST true streamReply (Except.ok (some msgs))).1,
       (∀ s o, e ≠ ExtCall.extractionCall s o) ∧
       (∀ i, e ≠ ExtCall.fdaSearch i)) := by
  have hbound : ¬ msgs.length > 50 := by omega
  have hmap : msgs.map
      (fun m => ({ role := m.role, content := m.content } : ChatMessage)) = msgs :=
    List.map_id msgs
  have htr : (streamPOST true streamReply (Except.ok (some msgs))).1 =
      [ExtCall.streamCall msgs] := by
    cases hs : streamReply with
    | error e => simp [streamPOST, hbound, hs, hmap]
    | ok chunks => simp [streamPOST, hbound, hs, hmap]
  refine ⟨hmap, htr, ?_⟩
  rw [htr]
  intro e he
  rcases List.mem_cons.mp he with rfl | h2
  · simp
  · cases h2

theorem c10_stream_no_augmentation_witness :
    (streamPOST true (Except.ok ["chunk"])
        (Except.ok (some [sampleUserMsg]))).1 =
      [ExtCall.streamCall [sampleUserMsg]] :=
  (c10_stream_no_augmentation (Except.ok ["chunk"]) [sampleUserMsg]
    (by decide)).2.1

end NicChat
